import Mathlib

/-
Shallow embedding of src/script.js (the "Scroll to Breathe" page script).

The script has two independent pieces:

* `handleScroll` (script.js lines 42-99): reads the scroll offset, the
  scroll container height and the viewport height from the host, computes a
  progress ratio in [0,1], and applies four effects in order — background
  colour, per-shape scale transforms, per-message opacities, and finally a
  wrap (scroll reset to offset 1) when progress >= 0.99.

* the audio-toggle click handler (script.js lines 118-134): alerts and
  aborts when the audio source is empty, otherwise requests playback or
  pauses and updates the toggle label.

Numbers are modelled as exact rationals (JS numbers are binary doubles; the
constants 0.12, 0.99, etc. are taken at their decimal face value, which is
the standard idealisation).  The DOM mutations performed by `handleScroll`
are modelled as an ordered trace of `Effect`s so that the claims about
effect ordering can be stated.  The sine-based formulas (shape scale,
background lightness) are real-valued; the trace records the progress value
each effect was computed from, and the real-valued formulas are separate
definitions mirroring the same source lines.
-/

/-- Host-environment inputs read by `handleScroll`:
`pageYOffset` models `window.pageYOffset || document.documentElement.scrollTop`
(line 48, a single scroll offset), `scrollHeight` models
`scrollContainer.scrollHeight` and `innerHeight` models `window.innerHeight`
(line 49); `numShapes` and `numMessages` are the sizes of the fixed `.shape`
and `.affirmation` collections gathered at startup (lines 13-14). -/
structure Env where
  pageYOffset : ℚ
  scrollHeight : ℚ
  innerHeight : ℚ
  numShapes : ℕ
  numMessages : ℕ
  deriving DecidableEq

/-- script.js line 35: `const messagePositions = [0.10, 0.30, 0.50, 0.70, 0.90]`. -/
def messagePositions : List ℚ := [0.10, 0.30, 0.50, 0.70, 0.90]

/-- script.js line 80: `const fadeRange = 0.12`. -/
def fadeRange : ℚ := 0.12

/-- script.js lines 49-50:
`const totalScroll = scrollContainer.scrollHeight - window.innerHeight;`
`const progress = totalScroll > 0 ? Math.min(1, Math.max(0, scrollTop / totalScroll)) : 0;`. -/
def progress (env : Env) : ℚ :=
  if 0 < env.scrollHeight - env.innerHeight then
    min 1 (max 0 (env.pageYOffset / (env.scrollHeight - env.innerHeight)))
  else 0

/-- The spec's algorithm step 1, transcribed from the spec's own words for
comparison with `progress` (refinement claim):
`progress = clamp01(scrollOffset / max(1, scrollableHeight - viewportHeight))`;
if `scrollableHeight - viewportHeight <= 0`, `progress = 0`. -/
def specProgress (s range : ℚ) : ℚ :=
  if range ≤ 0 then 0 else min 1 (max 0 (s / max 1 range))

/-- script.js lines 77-88, the body of `messages.forEach`: look the target up
in `messagePositions` at the message index, set opacity `1 - diff/fadeRange`
when `diff < fadeRange` and 0 otherwise.  For an index beyond the array the JS
lookup yields `undefined`, `diff` is `NaN`, every comparison with `NaN` is
false, so the `if` is not taken and the default opacity 0 is applied; the
`none` branch models exactly that. -/
def messageOpacity (p : ℚ) (i : ℕ) : ℚ :=
  match messagePositions.get? i with
  | some target =>
    if |p - target| < fadeRange then 1 - |p - target| / fadeRange else 0
  | none => 0

/-- One DOM mutation performed by `handleScroll`, in source order.  Each
constructor records the data the mutation was computed from:
`setBackground p` is line 58 (colour derived from progress `p` via `hue`
and `lightness` below), `setShapeScale index n p` is line 73 (transform
`scale(shapeScale index n p)`), `setMessageOpacity index o` is line 87,
and `scrollTo x y` is line 96. -/
inductive Effect where
  | setBackground (p : ℚ)
  | setShapeScale (index n : ℕ) (p : ℚ)
  | setMessageOpacity (index : ℕ) (opacity : ℚ)
  | scrollTo (x y : ℚ)
  deriving DecidableEq

/-- script.js line 56: `const hue = 200 + progress * 100`. -/
def hue (p : ℚ) : ℚ := 200 + p * 100

/-- script.js line 57: `const lightness = 60 + Math.sin(progress * Math.PI) * 10`. -/
noncomputable def lightness (p : ℝ) : ℝ := 60 + Real.sin (p * Real.pi) * 10

/-- script.js lines 70-72:
`const phaseOffset = (index * Math.PI) / shapes.length;`
`const phase = progress * 8 * Math.PI + phaseOffset;`
`const scale = 0.8 + Math.sin(phase) * 0.2;`. -/
noncomputable def shapeScale (index n : ℕ) (p : ℝ) : ℝ :=
  0.8 + Real.sin (p * 8 * Real.pi + (index * Real.pi) / n) * 0.2

/-- script.js lines 42-99, `handleScroll`, as the ordered trace of DOM
mutations it performs: set the body background (line 58), then scale each
shape in index order (lines 69-74), then set each message opacity in index
order (lines 77-88), and last — only when `progress >= 0.99` (line 93) —
scroll to `(0, 1)` (line 96) and return. -/
def handleScroll (env : Env) : List Effect :=
  [Effect.setBackground (progress env)]
  ++ ((List.range env.numShapes).map fun index =>
        Effect.setShapeScale index env.numShapes (progress env))
  ++ ((List.range env.numMessages).map fun i =>
        Effect.setMessageOpacity i (messageOpacity (progress env) i))
  ++ (if 0.99 ≤ progress env then [Effect.scrollTo 0 1] else [])

/-- State of the audio element and the toggle control: `src` models
`ambientAudio.src`, `paused` models `ambientAudio.paused`, `label` models
`audioToggle.textContent`. -/
structure AudioState where
  src : String
  paused : Bool
  label : String
  deriving DecidableEq

/-- Result of one click on the audio toggle: the new `AudioState`, whether
the blocking `alert` was shown, and whether `ambientAudio.play()` was
invoked. -/
structure ToggleOutcome where
  state : AudioState
  alerted : Bool
  playRequested : Bool
  deriving DecidableEq

/-- script.js lines 118-134, the audio-toggle click handler.  `playOk`
models the eventual outcome of the asynchronous `play()` request (the
element ends up playing exactly when the request succeeds; the rejection
is swallowed by the empty `catch`).  Note that line 129 sets the label to
"Pause Sound" unconditionally, outside the `catch`, so the label does not
depend on `playOk`. -/
def onToggleClicked (playOk : Bool) (st : AudioState) : ToggleOutcome :=
  if st.src = "" then
    { state := st, alerted := true, playRequested := false }
  else if st.paused then
    { state := { st with paused := !playOk, label := "Pause Sound" },
      alerted := false, playRequested := true }
  else
    { state := { st with paused := true, label := "Play Sound" },
      alerted := false, playRequested := false }

/-- C1: for every scroll offset, viewport height and container scroll
height, the progress computed by `handleScroll` (line 50) lies in [0, 1];
and whenever the scrollable range `scrollHeight - innerHeight` is zero or
negative, the computed progress is 0 regardless of the scroll offset. -/
theorem progress_clamped (s sh ih : ℚ) (ns nm : ℕ) :
    (0 ≤ progress ⟨s, sh, ih, ns, nm⟩ ∧ progress ⟨s, sh, ih, ns, nm⟩ ≤ 1) ∧
    (sh - ih ≤ 0 → progress ⟨s, sh, ih, ns, nm⟩ = 0) := by
  unfold progress
  dsimp only
  constructor
  · split
    · exact ⟨le_min (by norm_num) (le_max_left 0 _), min_le_left 1 _⟩
    · exact ⟨le_refl 0, by norm_num⟩
  · intro h
    rw [if_neg (by linarith)]

/-- Witness for C1 at scroll offset 7 with scrollable range 1 - 2 = -1. -/
theorem progress_clamped_witness :
    (0 ≤ progress ⟨7, 1, 2, 0, 0⟩ ∧ progress ⟨7, 1, 2, 0, 0⟩ ≤ 1) ∧
    ((1 : ℚ) - 2 ≤ 0 ∧ progress ⟨7, 1, 2, 0, 0⟩ = 0) :=
  ⟨(progress_clamped 7 1 2 0 0).1,
   ⟨by norm_num, (progress_clamped 7 1 2 0 0).2 (by norm_num)⟩⟩

/-- C2 counterexample: with scrollable range 1.5 - 1 = 0.5 (strictly between
0 and 1) and scroll offset 0.25, the code (line 50) divides by the range
itself and yields 0.5, while the spec's formula with the denominator floored
at 1 yields 0.25 — so the code progress is NOT `clamp01(s / max(1, range))`
for every positive range. -/
theorem progress_flooring_counterexample :
    progress ⟨0.25, 1.5, 1, 0, 0⟩ ≠ specProgress 0.25 (1.5 - 1) := by
  norm_num [progress, specProgress, min_def, max_def]

/-- C2 amended: for every scroll offset and every scrollable range that is
at least 1 (in particular every whole-pixel positive range), the progress
computed by `handleScroll` equals the spec formula
`clamp01(scrollOffset / max(1, range))`, because there the floor at 1 does
not bite; for ranges strictly between 0 and 1 the code divides by the range
itself, not by 1. -/
theorem progress_matches_spec_formula (s sh ih : ℚ) (ns nm : ℕ)
    (hr : 1 ≤ sh - ih) :
    progress ⟨s, sh, ih, ns, nm⟩ = specProgress s (sh - ih) := by
  unfold progress specProgress
  dsimp only
  rw [if_pos (by linarith : (0 : ℚ) < sh - ih),
    if_neg (by linarith : ¬ sh - ih ≤ 0), max_eq_right hr]

/-- Witness for the amended C2 at scroll offset 50 with range 101 - 1 = 100. -/
theorem progress_matches_spec_formula_witness :
    (1 : ℚ) ≤ 101 - 1 ∧
    progress ⟨50, 101, 1, 0, 0⟩ = specProgress 50 (101 - 1) :=
  ⟨by norm_num, progress_matches_spec_formula 50 101 1 0 0 (by norm_num)⟩

/-- C3: for every message index `i` whose target `t` comes from the fixed
sequence `messagePositions = [0.10, 0.30, 0.50, 0.70, 0.90]` and every
progress `p` in [0,1], the opacity assigned by `handleScroll` (lines 77-88)
equals `max 0 (1 - |p - t| / 0.12)`; it is 1 exactly when `p = t` and 0
whenever `|p - t| ≥ 0.12` (and is linear in `|p - t|` in between, which the
closed form exhibits). -/
theorem messageOpacity_correct (i : ℕ) (t p : ℚ)
    (ht : messagePositions.get? i = some t) (hp0 : 0 ≤ p) (hp1 : p ≤ 1) :
    messageOpacity p i = max 0 (1 - |p - t| / fadeRange) ∧
    (messageOpacity p i = 1 ↔ p = t) ∧
    (fadeRange ≤ |p - t| → messageOpacity p i = 0) := by
  have hfr : (0 : ℚ) < fadeRange := by norm_num [fadeRange]
  simp only [messageOpacity, ht]
  by_cases hd : |p - t| < fadeRange
  · rw [if_pos hd]
    have hlt1 : |p - t| / fadeRange < 1 := (div_lt_one hfr).mpr hd
    refine ⟨(max_eq_right (by linarith)).symm, ⟨?_, ?_⟩, ?_⟩
    · intro h
      have h0 : |p - t| / fadeRange = 0 := by linarith
      rcases div_eq_zero_iff.mp h0 with h1 | h1
      · exact sub_eq_zero.mp (abs_eq_zero.mp h1)
      · exact absurd h1 (by norm_num [fadeRange])
    · intro h
      subst h
      simp
    · intro hge
      exact absurd hd (not_lt.mpr hge)
  · rw [if_neg hd]
    push_neg at hd
    have h1 : 1 ≤ |p - t| / fadeRange := (one_le_div hfr).mpr hd
    refine ⟨(max_eq_left (by linarith)).symm, ⟨?_, ?_⟩, fun _ => rfl⟩
    · intro h
      exact absurd h (by norm_num)
    · intro h
      subst h
      simp only [sub_self, abs_zero] at hd
      exact absurd hd (not_le.mpr hfr)

/-- Witness for C3: message index 1 has target 0.30 and, at progress 0.30,
opacity 1 (the spec's message scenario). -/
theorem messageOpacity_correct_witness :
    messagePositions.get? 1 = some 0.30 ∧ (0 : ℚ) ≤ 0.30 ∧ (0.30 : ℚ) ≤ 1 ∧
    (messageOpacity 0.30 1 = max 0 (1 - |(0.30 : ℚ) - 0.30| / fadeRange) ∧
     (messageOpacity 0.30 1 = 1 ↔ (0.30 : ℚ) = 0.30) ∧
     (fadeRange ≤ |(0.30 : ℚ) - 0.30| → messageOpacity 0.30 1 = 0)) :=
  ⟨by norm_num [messagePositions], by norm_num, by norm_num,
   messageOpacity_correct 1 0.30 0.30 (by norm_num [messagePositions])
     (by norm_num) (by norm_num)⟩

/-- C4: whenever `handleScroll` runs with computed progress ≥ 0.99, the
background, every shape scale and every message opacity are first set from
that pre-wrap progress value, and only afterwards — as the last effect of
the invocation — is the host scrolled to vertical offset exactly 1 (the
call is `scrollTo 0 1`, so the new offset is 1, not 0); the wrap branch
performs no further mutation after the scroll reset. -/
theorem wrap_after_visual_effects (env : Env)
    (h : (0.99 : ℚ) ≤ progress env) :
    handleScroll env =
      ([Effect.setBackground (progress env)]
        ++ ((List.range env.numShapes).map fun index =>
              Effect.setShapeScale index env.numShapes (progress env))
        ++ ((List.range env.numMessages).map fun i =>
              Effect.setMessageOpacity i (messageOpacity (progress env) i)))
      ++ [Effect.scrollTo 0 1] ∧
    (handleScroll env).getLast? = some (Effect.scrollTo 0 1) := by
  have he : handleScroll env =
      ([Effect.setBackground (progress env)]
        ++ ((List.range env.numShapes).map fun index =>
              Effect.setShapeScale index env.numShapes (progress env))
        ++ ((List.range env.numMessages).map fun i =>
              Effect.setMessageOpacity i (messageOpacity (progress env) i)))
      ++ [Effect.scrollTo 0 1] := by
    unfold handleScroll
    rw [if_pos h]
  refine ⟨he, ?_⟩
  rw [he]
  exact List.getLast?_concat _

/-- Witness for C4: scrollable range 900 - 800 = 100 and scroll offset 100
give progress 1 ≥ 0.99 (the spec's wrap scenario). -/
theorem wrap_after_visual_effects_witness :
    (0.99 : ℚ) ≤ progress ⟨100, 900, 800, 0, 0⟩ ∧
    (handleScroll ⟨100, 900, 800, 0, 0⟩ =
      ([Effect.setBackground (progress ⟨100, 900, 800, 0, 0⟩)]
        ++ ((List.range (Env.mk 100 900 800 0 0).numShapes).map fun index =>
              Effect.setShapeScale index (Env.mk 100 900 800 0 0).numShapes
                (progress ⟨100, 900, 800, 0, 0⟩))
        ++ ((List.range (Env.mk 100 900 800 0 0).numMessages).map fun i =>
              Effect.setMessageOpacity i
                (messageOpacity (progress ⟨100, 900, 800, 0, 0⟩) i)))
      ++ [Effect.scrollTo 0 1] ∧
     (handleScroll ⟨100, 900, 800, 0, 0⟩).getLast? =
       some (Effect.scrollTo 0 1)) :=
  ⟨by norm_num [progress, min_def, max_def],
   wrap_after_visual_effects ⟨100, 900, 800, 0, 0⟩
     (by norm_num [progress, min_def, max_def])⟩

/-- C5: for a fixed viewport height and container scroll height with
positive scrollable range, the progress computed by `handleScroll` is
monotonically non-decreasing in the scroll offset. -/
theorem progress_monotone (s1 s2 sh ih : ℚ) (ns nm : ℕ)
    (hr : 0 < sh - ih) (hs : s1 ≤ s2) :
    progress ⟨s1, sh, ih, ns, nm⟩ ≤ progress ⟨s2, sh, ih, ns, nm⟩ := by
  unfold progress
  dsimp only
  rw [if_pos hr, if_pos hr]
  have hdiv : s1 / (sh - ih) ≤ s2 / (sh - ih) := by gcongr
  exact min_le_min (le_refl 1) (max_le_max (le_refl 0) hdiv)

/-- Witness for C5 with range 100 and offsets 10 ≤ 20. -/
theorem progress_monotone_witness :
    (0 : ℚ) < 101 - 1 ∧ (10 : ℚ) ≤ 20 ∧
    progress ⟨10, 101, 1, 0, 0⟩ ≤ progress ⟨20, 101, 1, 0, 0⟩ :=
  ⟨by norm_num, by norm_num,
   progress_monotone 10 20 101 1 0 0 (by norm_num) (by norm_num)⟩

/-- C6: for every shape index `i` among `n` shapes and every progress
`p ∈ [0, 1]`, the scale `0.8 + sin(p·8π + i·π/n)·0.2` assigned by
`handleScroll` (lines 70-73) lies in [0.6, 1.0]. -/
theorem shapeScale_bounds (index n : ℕ) (p : ℝ)
    (hin : index < n) (hp0 : 0 ≤ p) (hp1 : p ≤ 1) :
    0.6 ≤ shapeScale index n p ∧ shapeScale index n p ≤ 1 := by
  unfold shapeScale
  constructor <;>
    nlinarith [Real.sin_le_one (p * 8 * Real.pi + (index * Real.pi) / n),
      Real.neg_one_le_sin (p * 8 * Real.pi + (index * Real.pi) / n)]

/-- Witness for C6 at shape index 0 of 1 shape and progress 0. -/
theorem shapeScale_bounds_witness :
    (0 : ℕ) < 1 ∧ (0 : ℝ) ≤ 0 ∧ (0 : ℝ) ≤ 1 ∧
    (0.6 ≤ shapeScale 0 1 0 ∧ shapeScale 0 1 0 ≤ 1) :=
  ⟨by decide, le_refl 0, by norm_num,
   shapeScale_bounds 0 1 0 (by decide) (le_refl 0) (by norm_num)⟩

/-- C7 counterexample: on the play branch (non-empty source, audio paused)
with a FAILED playback request, the toggle label still changes to
"Pause Sound" (line 129 runs unconditionally, outside the catch), so the
label is NOT left unchanged on failure. -/
theorem play_label_changes_on_failure :
    (onToggleClicked false ⟨"ambient.mp3", true, "Play Sound"⟩).state.label
      = "Pause Sound" ∧
    (onToggleClicked false ⟨"ambient.mp3", true, "Play Sound"⟩).state.label
      ≠ "Play Sound" := by
  refine ⟨rfl, ?_⟩
  decide

/-- C7 amended: on the play branch with a failed playback request the
failure is silently ignored — no alert is shown, the audio stays paused —
but the label is nevertheless set to "Pause Sound" rather than being left
unchanged (the label change is not gated on success). -/
theorem play_failure_silent_but_label_set (st : AudioState)
    (hsrc : st.src ≠ "") (hp : st.paused = true) :
    (onToggleClicked false st).alerted = false ∧
    (onToggleClicked false st).state.paused = true ∧
    (onToggleClicked false st).state.label = "Pause Sound" := by
  simp [onToggleClicked, hsrc, hp]

/-- Witness for the amended C7 on a paused state with a set source. -/
theorem play_failure_silent_but_label_set_witness :
    (AudioState.mk "ambient.mp3" true "Play Sound").src ≠ "" ∧
    (AudioState.mk "ambient.mp3" true "Play Sound").paused = true ∧
    ((onToggleClicked false (AudioState.mk "ambient.mp3" true "Play Sound")).alerted = false ∧
     (onToggleClicked false (AudioState.mk "ambient.mp3" true "Play Sound")).state.paused = true ∧
     (onToggleClicked false (AudioState.mk "ambient.mp3" true "Play Sound")).state.label
       = "Pause Sound") :=
  ⟨by decide, rfl,
   play_failure_silent_but_label_set (AudioState.mk "ambient.mp3" true "Play Sound")
     (by decide) rfl⟩

/-- C8: whenever the audio-toggle click handler runs with a non-empty
source and the audio paused, playback is requested and the label is set to
"Pause Sound" unconditionally — for every outcome `playOk` of the
asynchronous request, success or failure alike. -/
theorem play_branch_label_unconditional (playOk : Bool) (st : AudioState)
    (hsrc : st.src ≠ "") (hp : st.paused = true) :
    (onToggleClicked playOk st).playRequested = true ∧
    (onToggleClicked playOk st).state.label = "Pause Sound" := by
  simp [onToggleClicked, hsrc, hp]

/-- Witness for C8 with a failed request, the case where the label update
is purely optimistic. -/
theorem play_branch_label_unconditional_witness :
    (AudioState.mk "track.mp3" true "Play Sound").src ≠ "" ∧
    (AudioState.mk "track.mp3" true "Play Sound").paused = true ∧
    ((onToggleClicked false (AudioState.mk "track.mp3" true "Play Sound")).playRequested = true ∧
     (onToggleClicked false (AudioState.mk "track.mp3" true "Play Sound")).state.label
       = "Pause Sound") :=
  ⟨by decide, rfl,
   play_branch_label_unconditional false (AudioState.mk "track.mp3" true "Play Sound")
     (by decide) rfl⟩

/-- C9: whenever the audio-toggle click handler runs with an empty source,
the blocking alert is shown and the handler returns with no state mutated:
the play/pause state and the label are unchanged and no playback is
requested, for every outcome of a hypothetical request. -/
theorem empty_src_alerts_no_mutation (playOk : Bool) (st : AudioState)
    (hsrc : st.src = "") :
    onToggleClicked playOk st =
      { state := st, alerted := true, playRequested := false } := by
  simp [onToggleClicked, hsrc]

/-- Witness for C9 on a paused state with empty source. -/
theorem empty_src_alerts_no_mutation_witness :
    (AudioState.mk "" true "Play Sound").src = "" ∧
    onToggleClicked true (AudioState.mk "" true "Play Sound") =
      { state := AudioState.mk "" true "Play Sound",
        alerted := true, playRequested := false } :=
  ⟨rfl, empty_src_alerts_no_mutation true (AudioState.mk "" true "Play Sound") rfl⟩

/-- C10: for every message index at least 5 (the length of
`messagePositions`), every invocation of `handleScroll` computes opacity 0
for that message and emits the corresponding effect without error: the
out-of-range lookup yields no target, the fade-range test fails, and the
default opacity 0 is applied. -/
theorem out_of_range_message_opacity_zero (env : Env) (i : ℕ)
    (h5 : 5 ≤ i) (hlt : i < env.numMessages) :
    messageOpacity (progress env) i = 0 ∧
    Effect.setMessageOpacity i 0 ∈ handleScroll env := by
  have hz : ∀ p : ℚ, messageOpacity p i = 0 := by
    intro p
    unfold messageOpacity
    have hnone : messagePositions.get? i = none :=
      List.get?_eq_none.mpr (by simp [messagePositions]; omega)
    rw [hnone]
  refine ⟨hz _, ?_⟩
  have hmem : Effect.setMessageOpacity i (messageOpacity (progress env) i) ∈
      (List.range env.numMessages).map fun j =>
        Effect.setMessageOpacity j (messageOpacity (progress env) j) :=
    List.mem_map_of_mem _ (List.mem_range.mpr hlt)
  rw [hz] at hmem
  unfold handleScroll
  exact List.mem_append_left _ (List.mem_append_right _ hmem)

/-- Witness for C10: a page with 6 messages; message index 5 gets opacity 0. -/
theorem out_of_range_message_opacity_zero_witness :
    5 ≤ 5 ∧ 5 < (Env.mk 0 2 1 0 6).numMessages ∧
    (messageOpacity (progress (Env.mk 0 2 1 0 6)) 5 = 0 ∧
     Effect.setMessageOpacity 5 0 ∈ handleScroll (Env.mk 0 2 1 0 6)) :=
  ⟨by decide, by decide,
   out_of_range_message_opacity_zero (Env.mk 0 2 1 0 6) 5 (by decide) (by decide)⟩
